import Mathlib

/-!
# release-controller: start-up sequence of `cmd/release-controller/main.go`

A shallow embedding of `main`, `options.Run` and `loadClusterConfig`.

The three functions only talk to libraries (client-go, glog, cobra) and to the
controller type, none of which is part of `main.go`.  Every call that leaves the
file is therefore recorded as an `Event` in a trace, and the value the call
returns is read from an environment record.  Errors are their message strings,
`fmt.Errorf("...: %v", err)` is string concatenation.
-/

namespace ReleaseController

/-! ## Data -/

/-- The command-line options, `type options struct` (main.go:24-27). -/
structure options where
  ReleaseNamespace : String
  JobNamespace : String
deriving DecidableEq, Repr

/-- A `*rest.Config`; only its identity matters here. -/
structure Config where
  host : String
deriving DecidableEq, Repr

/-- The merged kubeconfig returned by the default client-config loading rules. -/
structure Credentials where
  currentContext : String
deriving DecidableEq, Repr

/-- A kubernetes clientset built by `clientset.NewForConfig`. -/
structure Clientset where
  config : Config
deriving DecidableEq, Repr

/-- An image clientset built by `imageclientset.NewForConfig`. -/
structure ImageClientset where
  config : Config
deriving DecidableEq, Repr

/-- Stop channels.  `NeverStop` is `wait.NeverStop`, the channel of
apimachinery that nobody ever closes.  `signalHandler` stands for a channel that
is closed when the process receives a termination signal; `main.go` never
creates one, the constructor exists so that "the channel can be signalled" is a
property a channel may or may not have. -/
inductive StopCh where
  | NeverStop
  | signalHandler
deriving DecidableEq, Repr

/-- Whether some execution can signal (close) the channel. -/
def StopCh.canBeSignalled : StopCh → Bool
  | .NeverStop => false
  | .signalHandler => true

/-- Shared informer factories, told apart by resource kind and by the namespace
given to `WithNamespace`: `batch` is `informers.NewSharedInformerFactoryWithOptions`,
`image` is `imageinformers.NewSharedInformerFactoryWithOptions`. -/
inductive Factory where
  | batch (ns : String)
  | image (ns : String)
deriving DecidableEq, Repr

/-- The job informer `batchFactory.Batch().V1().Jobs()`, tied to its factory. -/
structure JobInformer where
  factory : Factory
deriving DecidableEq, Repr

/-- The controller value.  Its type is declared outside `main.go`; `main.go`
reads exactly one field of it, `c.jobNamespace` (main.go:108). -/
structure Controller where
  jobNamespace : String
deriving DecidableEq, Repr

/-- The two places where `main` calls `glog.Exitf`: inside the cobra `Run`
closure (main.go:38) and after `cmd.Execute` (main.go:48). -/
inductive ExitSite where
  | runClosure
  | afterExecute
deriving DecidableEq, Repr

/-- Every call that leaves `main.go`, in the order it is made. -/
inductive Event where
  /-- Call of `loadClusterConfig()` (main.go:53). -/
  | loadClusterConfig
  /-- Call of `clientset.NewForConfig(config)` (main.go:64). -/
  | newClientset (config : Config)
  /-- Call of `client.Core().Namespaces().Get(ns, ...)` (main.go:68, 72). -/
  | namespaceGet (ns : String)
  /-- Call of `glog.Infof` with the formatted message (main.go:75, 77, 113). -/
  | infof (msg : String)
  /-- Call of `imageclientset.NewForConfig(config)` (main.go:80). -/
  | newImageClientset (config : Config)
  /-- Creation of an informer factory (main.go:86, 102, 107). -/
  | newFactory (f : Factory)
  /-- Call of `NewController(..., releaseNamespace, jobNamespace)` (main.go:89-96). -/
  | newController (jobs : JobInformer) (releaseNamespace : String) (jobNamespace : String)
  /-- Call of `factory.Start(stopCh)` (main.go:98, 104, 109). -/
  | factoryStart (f : Factory) (stopCh : StopCh)
  /-- Call of `factory.WaitForCacheSync(stopCh)` (main.go:99, 105, 110). -/
  | factoryWaitForCacheSync (f : Factory) (stopCh : StopCh)
  /-- Call of `c.AddNamespacedImageStreamInformer(ns, factory.Image().V1().ImageStreams())`
  (main.go:103, 108). -/
  | addNamespacedImageStreamInformer (ns : String) (f : Factory)
  /-- Call of `c.Run(workers, stopCh)` (main.go:115). -/
  | controllerRun (workers : Nat) (stopCh : StopCh)
  /-- Call of `glog.Exitf` with the formatted message (main.go:38, 48). -/
  | exitf (site : ExitSite) (msg : String)
deriving DecidableEq, Repr

/-! ## Environment -/

/-- What the configuration libraries answer in one execution. -/
structure ClusterEnv where
  /-- What `rest.InClusterConfig()` would return.  No function of `main.go`
  calls it; the field is here so that statements about the in-cluster
  configuration can be written down. -/
  inClusterConfig : Except String Config
  /-- Result of `clientcmd.NewDefaultClientConfigLoadingRules().Load()`. -/
  loadingRulesLoad : Except String Credentials
  /-- Result of `clientcmd.NewDefaultClientConfig(credentials, ...).ClientConfig()`. -/
  clientConfig : Credentials → Except String Config
  /-- Result of `clientcmd.NewDefaultClientConfig(credentials, ...).Namespace()`. -/
  configNamespace : Credentials → Except String (String × Bool)

/-- What the outside world answers in one execution of `options.Run`.
`namespaceGet` is a function of the name: `Run` asks for each name at most
once. -/
structure Env where
  cluster : ClusterEnv
  /-- Result of `clientset.NewForConfig`. -/
  newClientset : Config → Except String Clientset
  /-- Result of `client.Core().Namespaces().Get(name, ...)`; the namespace object is discarded. -/
  namespaceGet : Clientset → String → Except String Unit
  /-- Result of `imageclientset.NewForConfig`. -/
  newImageClientset : Config → Except String ImageClientset
  /-- The constructor `NewController`, declared outside `main.go`. -/
  NewController : Clientset → ImageClientset → JobInformer → String → String → Controller
  /-- The controller after the call of its method `AddNamespacedImageStreamInformer`,
  declared outside `main.go`: the method has the controller as receiver and may
  change its fields. -/
  AddNamespacedImageStreamInformer : Controller → String → Factory → Controller
  /-- Whether `c.Run(3, stopCh)` ever returns to its caller. -/
  controllerRunReturns : Bool

/-! ## loadClusterConfig -/

/-- The function `loadClusterConfig` (main.go:140-155).  The Go function returns
`(nil, "", false, err)` on failure; that is `Except.error err` here. -/
def loadClusterConfig (env : ClusterEnv) : Except String (Config × String × Bool) :=
  match env.loadingRulesLoad with
  | .error err => .error ("could not load credentials from config: " ++ err)
  | .ok credentials =>
    match env.clientConfig credentials with
    | .error err => .error ("could not load client configuration: " ++ err)
    | .ok clusterConfig =>
      match env.configNamespace credentials with
      | .error err => .error ("could not load client namespace: " ++ err)
      | .ok (ns, isSet) => .ok (clusterConfig, ns, isSet)

/-! ## options.Run -/

/-- How a call of `options.Run` ends: with an error, with `nil`, or not at all
(the controller loop never returned). -/
inductive Outcome where
  | error (msg : String)
  | nil
  | blocked
deriving DecidableEq, Repr

/-- The trace of external calls made by `options.Run` and how it ended. -/
structure RunResult where
  trace : List Event
  outcome : Outcome
deriving DecidableEq, Repr

/-- The `wait.NeverStop` assigned to `stopCh` (main.go:85). -/
def stopCh : StopCh := StopCh.NeverStop

/-- The second image-stream registration, main.go:106-111. -/
def registerJobImageStreams (o : options) (c : Controller) : List Event :=
  if o.JobNamespace != o.ReleaseNamespace then
    [ Event.newFactory (Factory.image o.JobNamespace),
      Event.addNamespacedImageStreamInformer c.jobNamespace (Factory.image o.JobNamespace),
      Event.factoryStart (Factory.image o.JobNamespace) stopCh,
      Event.factoryWaitForCacheSync (Factory.image o.JobNamespace) stopCh ]
  else []

/-- The part of `options.Run` after the last check, main.go:85-116.  The
controller `c` is built at main.go:89 and is the receiver of the registration at
main.go:103; `c1` is the controller after that call, the one whose field
`jobNamespace` is read at main.go:108.  The calls on the factories in between
take no controller. -/
def startController (o : options) (env : Env) (client : Clientset)
    (imageClient : ImageClientset) : RunResult :=
  let batchFactory := Factory.batch o.JobNamespace
  let jobs : JobInformer := ⟨batchFactory⟩
  let c := env.NewController client imageClient jobs o.ReleaseNamespace o.JobNamespace
  let factory := Factory.image o.ReleaseNamespace
  let c1 := env.AddNamespacedImageStreamInformer c o.ReleaseNamespace factory
  { trace :=
      [ Event.newFactory batchFactory,
        Event.newController jobs o.ReleaseNamespace o.JobNamespace,
        Event.factoryStart batchFactory stopCh,
        Event.factoryWaitForCacheSync batchFactory stopCh,
        Event.newFactory factory,
        Event.addNamespacedImageStreamInformer o.ReleaseNamespace factory,
        Event.factoryStart factory stopCh,
        Event.factoryWaitForCacheSync factory stopCh ]
      ++ registerJobImageStreams o c1
      ++ [ Event.infof "Caches synced",
           Event.controllerRun 3 stopCh ],
    outcome := if env.controllerRunReturns then Outcome.nil else Outcome.blocked }

/-- The image client and what follows it, main.go:80-116.  The argument `pre` is
the trace so far. -/
def createImageClient (o : options) (env : Env) (config : Config) (client : Clientset)
    (pre : List Event) : RunResult :=
  match env.newImageClientset config with
  | .error err =>
    ⟨pre ++ [Event.newImageClientset config],
      Outcome.error ("unable to create client: " ++ err)⟩
  | .ok imageClient =>
    let r := startController o env client imageClient
    ⟨pre ++ [Event.newImageClientset config] ++ r.trace, r.outcome⟩

/-- The namespace lookups, main.go:68-78, followed by `createImageClient`.  The
argument `pre` is the trace so far. -/
def checkNamespaces (o : options) (env : Env) (config : Config) (client : Clientset)
    (pre : List Event) : RunResult :=
  match env.namespaceGet client o.ReleaseNamespace with
  | .error err =>
    ⟨pre ++ [Event.namespaceGet o.ReleaseNamespace],
      Outcome.error ("unable to find release namespace: " ++ err)⟩
  | .ok _ =>
    if o.JobNamespace != o.ReleaseNamespace then
      match env.namespaceGet client o.JobNamespace with
      | .error err =>
        ⟨pre ++ [Event.namespaceGet o.ReleaseNamespace, Event.namespaceGet o.JobNamespace],
          Outcome.error ("unable to find job namespace: " ++ err)⟩
      | .ok _ =>
        createImageClient o env config client (pre ++
          [ Event.namespaceGet o.ReleaseNamespace,
            Event.namespaceGet o.JobNamespace,
            Event.infof ("Releases will be published to image stream "
              ++ o.ReleaseNamespace ++ "/" ++ "release"
              ++ ", jobs and mirrors will be created in namespace " ++ o.JobNamespace) ])
    else
      createImageClient o env config client (pre ++
        [ Event.namespaceGet o.ReleaseNamespace,
          Event.infof ("Release will be published to image stream "
            ++ o.ReleaseNamespace ++ "/" ++ "release"
            ++ " and jobs will be in the same namespace") ])

/-- The method `options.Run` (main.go:52-116). -/
def options.Run (o : options) (env : Env) : RunResult :=
  match loadClusterConfig env.cluster with
  | .error err =>
    ⟨[Event.loadClusterConfig],
      Outcome.error ("unable to load client configuration: " ++ err)⟩
  | .ok (config, _, _) =>
    if o.ReleaseNamespace.length == 0 then
      ⟨[Event.loadClusterConfig], Outcome.error "no namespace set, use --release-namespace"⟩
    else if o.JobNamespace.length == 0 then
      ⟨[Event.loadClusterConfig], Outcome.error "no job namespace set, use --job-namespace"⟩
    else
      match env.newClientset config with
      | .error err =>
        ⟨[Event.loadClusterConfig, Event.newClientset config],
          Outcome.error ("unable to create client: " ++ err)⟩
      | .ok client =>
        checkNamespaces o env config client [Event.loadClusterConfig, Event.newClientset config]

/-! ## main -/

/-- How the process ends: the exit status, or `none` when it never exits. -/
structure Process where
  trace : List Event
  exitStatus : Option Nat
deriving DecidableEq, Repr

/-- The function `main` (main.go:29-50).  `parse` is what cobra makes of the
command line inside `cmd.Execute`: an error, which `Execute` returns without
calling the `Run` closure, or the option values it stored through the two
`StringVar` bindings.  `glog.Exitf` writes its message and ends the process with
status 1, so nothing that follows it in the program is executed.  The two
`original.Set` calls only configure glog (log to stderr, verbosity 2). -/
def main (parse : Except String options) (env : Env) : Process :=
  match parse with
  | .error err =>
    ⟨[Event.exitf ExitSite.afterExecute ("error: " ++ err)], some 1⟩
  | .ok opt =>
    let r := opt.Run env
    match r.outcome with
    | .error err =>
      ⟨r.trace ++ [Event.exitf ExitSite.runClosure ("error: " ++ err)], some 1⟩
    | .nil => ⟨r.trace, some 0⟩
    | .blocked => ⟨r.trace, none⟩

/-! ## Observations on traces -/

/-- The `glog.Exitf` calls of a trace: the diagnostics the process dies with. -/
def exitCalls : List Event → List (ExitSite × String)
  | [] => []
  | Event.exitf site msg :: t => (site, msg) :: exitCalls t
  | _ :: t => exitCalls t

/-- The stop channels handed out in a trace: one entry for every `Start`,
every `WaitForCacheSync` and every controller `Run`. -/
def stopChannels : List Event → List StopCh
  | [] => []
  | Event.factoryStart _ ch :: t => ch :: stopChannels t
  | Event.factoryWaitForCacheSync _ ch :: t => ch :: stopChannels t
  | Event.controllerRun _ ch :: t => ch :: stopChannels t
  | _ :: t => stopChannels t

/-- The names of the namespaces looked up in a trace. -/
def lookups : List Event → List String
  | [] => []
  | Event.namespaceGet ns :: t => ns :: lookups t
  | _ :: t => lookups t

/-- The informer factories created in a trace. -/
def createdFactories : List Event → List Factory
  | [] => []
  | Event.newFactory f :: t => f :: createdFactories t
  | _ :: t => createdFactories t

/-- The image-stream informers registered with the controller in a trace: the
namespace given as key and the factory the informer comes from. -/
def registrations : List Event → List (String × Factory)
  | [] => []
  | Event.addNamespacedImageStreamInformer ns f :: t => (ns, f) :: registrations t
  | _ :: t => registrations t

/-- The controller as it is when main.go:108 reads `c.jobNamespace`: built by
`NewController` (main.go:89) and then passed through the registration of
main.go:103. -/
def controllerAtJobRegistration (o : options) (env : Env) (client : Clientset)
    (imageClient : ImageClientset) : Controller :=
  env.AddNamespacedImageStreamInformer
    (env.NewController client imageClient ⟨Factory.batch o.JobNamespace⟩
      o.ReleaseNamespace o.JobNamespace)
    o.ReleaseNamespace (Factory.image o.ReleaseNamespace)

/-- The trace contains a call of the controller's `Run`. -/
def reachesLoop (t : List Event) : Prop :=
  ∃ w ch, Event.controllerRun w ch ∈ t

/-- Every start-up check of `options.Run` passes. -/
def ChecksPass (o : options) (env : Env) : Prop :=
  ∃ config ns isSet client imageClient,
    loadClusterConfig env.cluster = .ok (config, ns, isSet) ∧
    o.ReleaseNamespace ≠ "" ∧
    o.JobNamespace ≠ "" ∧
    env.newClientset config = .ok client ∧
    env.namespaceGet client o.ReleaseNamespace = .ok () ∧
    (o.JobNamespace ≠ o.ReleaseNamespace → env.namespaceGet client o.JobNamespace = .ok ()) ∧
    env.newImageClientset config = .ok imageClient

/-- The events that `options.Run` can emit before its last check. -/
def Event.isCheck : Event → Bool
  | .loadClusterConfig => true
  | .newClientset _ => true
  | .namespaceGet _ => true
  | .infof _ => true
  | .newImageClientset _ => true
  | _ => false

/-- The calls between the lookup of the release namespace and the creation of
the image client on the path where no check fails: the lookup of the job
namespace when it differs, and the log line (main.go:71-78). -/
def publishMessage (o : options) : List Event :=
  if o.JobNamespace ≠ o.ReleaseNamespace then
    [ Event.namespaceGet o.JobNamespace,
      Event.infof ("Releases will be published to image stream "
        ++ o.ReleaseNamespace ++ "/" ++ "release"
        ++ ", jobs and mirrors will be created in namespace " ++ o.JobNamespace) ]
  else
    [ Event.infof ("Release will be published to image stream "
        ++ o.ReleaseNamespace ++ "/" ++ "release"
        ++ " and jobs will be in the same namespace") ]

/-! ## Sample environments -/

/-- A workstation with a kubeconfig and no in-cluster configuration. -/
def sampleCluster : ClusterEnv where
  inClusterConfig := .error "unable to load in-cluster configuration"
  loadingRulesLoad := .ok ⟨"ci"⟩
  clientConfig := fun _ => .ok ⟨"https://api.ci.example"⟩
  configNamespace := fun _ => .ok ("default", false)

/-- A cluster in which the namespaces `ocp` and `ci-release` exist. -/
def sampleEnv : Env where
  cluster := sampleCluster
  newClientset := fun c => .ok ⟨c⟩
  namespaceGet := fun _ ns =>
    if ns = "ocp" ∨ ns = "ci-release" then .ok () else .error ("namespace not found: " ++ ns)
  newImageClientset := fun c => .ok ⟨c⟩
  NewController := fun _ _ _ _ jobNamespace => ⟨jobNamespace⟩
  AddNamespacedImageStreamInformer := fun c _ _ => c
  controllerRunReturns := false

/-- The environment `sampleEnv` with a controller loop that returns. -/
def returningEnv : Env :=
  { sampleEnv with controllerRunReturns := true }

/-- The environment `sampleEnv` with a controller whose constructor keeps the
release namespace in the field `jobNamespace`. -/
def releaseKeyedEnv : Env :=
  { sampleEnv with NewController := fun _ _ _ releaseNamespace _ => ⟨releaseNamespace⟩ }

/-- The environment `sampleEnv` with an unusable kubeconfig. -/
def noConfigEnv : Env :=
  { sampleEnv with
    cluster := { sampleCluster with loadingRulesLoad := .error "kubeconfig is malformed" } }

/-- A pod: the in-cluster configuration is available, there is no kubeconfig, so
the default loading rules yield an empty configuration that is not usable. -/
def podCluster : ClusterEnv where
  inClusterConfig := .ok ⟨"https://kubernetes.default.svc"⟩
  loadingRulesLoad := .ok ⟨""⟩
  clientConfig := fun _ => .error "invalid configuration: no configuration has been provided"
  configNamespace := fun _ => .error "invalid configuration: no configuration has been provided"

/-- A pod that also carries a kubeconfig pointing at another cluster. -/
def podWithKubeconfig : ClusterEnv where
  inClusterConfig := .ok ⟨"https://kubernetes.default.svc"⟩
  loadingRulesLoad := .ok ⟨"ci"⟩
  clientConfig := fun _ => .ok ⟨"https://api.ci.example"⟩
  configNamespace := fun _ => .ok ("default", false)

/-! ## Auxiliary lemmas -/

/-- The Go test `len(s) == 0` holds exactly for the empty string. -/
theorem string_length_beq_zero (s : String) : (s.length == 0) = decide (s = "") := by
  cases s with
  | mk data =>
    cases data with
    | nil => rfl
    | cons c t =>
      have h : (String.mk (c :: t) = "") = False := by
        simp only [eq_iff_iff, iff_false]
        intro h
        have := congrArg String.data h
        simp at this
      simp [String.length, h]

/-- The Go test `len(s) == 0` fails for a non-empty string. -/
theorem String_ne_empty_length (s : String) (h : s ≠ "") : (s.length == 0) = false := by
  rw [string_length_beq_zero]; simpa using h

/-- The whole result of `options.Run` when every check passes. -/
theorem Run_of_checks (o : options) (env : Env) (config : Config) (ns : String) (isSet : Bool)
    (client : Clientset) (imageClient : ImageClientset)
    (hload : loadClusterConfig env.cluster = .ok (config, ns, isSet))
    (hrel : o.ReleaseNamespace ≠ "") (hjob : o.JobNamespace ≠ "")
    (hclient : env.newClientset config = .ok client)
    (hgetrel : env.namespaceGet client o.ReleaseNamespace = .ok ())
    (hgetjob : o.JobNamespace ≠ o.ReleaseNamespace →
      env.namespaceGet client o.JobNamespace = .ok ())
    (himage : env.newImageClientset config = .ok imageClient) :
    o.Run env =
      ⟨[Event.loadClusterConfig, Event.newClientset config,
          Event.namespaceGet o.ReleaseNamespace]
        ++ publishMessage o ++ [Event.newImageClientset config]
        ++ (startController o env client imageClient).trace,
        (startController o env client imageClient).outcome⟩ := by
  unfold options.Run
  simp only [hload, String_ne_empty_length _ hrel, String_ne_empty_length _ hjob, hclient]
  unfold checkNamespaces
  simp only [hgetrel]
  by_cases hd : o.JobNamespace = o.ReleaseNamespace
  · simp [hd, createImageClient, himage, publishMessage]
  · simp [hd, hgetjob hd, createImageClient, himage, publishMessage]

/-- Either every check passes, or `options.Run` returns an error after calls that
all belong to the checks. -/
theorem Run_cases (o : options) (env : Env) :
    ChecksPass o env ∨
      ∃ msg, (o.Run env).outcome = Outcome.error msg ∧
        ∀ e ∈ (o.Run env).trace, e.isCheck = true := by
  rcases hload : loadClusterConfig env.cluster with err | ⟨config, ns, isSet⟩
  · right; simp [options.Run, hload, Event.isCheck]
  by_cases hrel : o.ReleaseNamespace = ""
  · right; simp [options.Run, hload, hrel, Event.isCheck]
  by_cases hjob : o.JobNamespace = ""
  · right; simp [options.Run, hload, hjob, String_ne_empty_length _ hrel, Event.isCheck]
  rcases hclient : env.newClientset config with err | client
  · right
    simp [options.Run, hload, hclient, String_ne_empty_length _ hrel,
      String_ne_empty_length _ hjob, Event.isCheck]
  rcases hgetrel : env.namespaceGet client o.ReleaseNamespace with err | u
  · right
    simp [options.Run, hload, hclient, String_ne_empty_length _ hrel,
      String_ne_empty_length _ hjob, checkNamespaces, hgetrel, Event.isCheck]
  rcases himage : env.newImageClientset config with err | imageClient
  · right
    by_cases hd : o.JobNamespace = o.ReleaseNamespace
    · simp [options.Run, hload, hclient, String_ne_empty_length _ hrel,
        String_ne_empty_length _ hjob, checkNamespaces, hgetrel, hd, createImageClient,
        himage, Event.isCheck]
    · rcases hgetjob : env.namespaceGet client o.JobNamespace with err | u2
      · simp [options.Run, hload, hclient, String_ne_empty_length _ hrel,
          String_ne_empty_length _ hjob, checkNamespaces, hgetrel, hd, hgetjob, Event.isCheck]
      · simp [options.Run, hload, hclient, String_ne_empty_length _ hrel,
          String_ne_empty_length _ hjob, checkNamespaces, hgetrel, hd, hgetjob,
          createImageClient, himage, Event.isCheck]
  by_cases hd : o.JobNamespace = o.ReleaseNamespace
  · exact Or.inl ⟨config, ns, isSet, client, imageClient, hload, hrel, hjob, hclient,
      hgetrel, fun hne => absurd hd hne, himage⟩
  · rcases hgetjob : env.namespaceGet client o.JobNamespace with err | u2
    · right
      simp [options.Run, hload, hclient, String_ne_empty_length _ hrel,
        String_ne_empty_length _ hjob, checkNamespaces, hgetrel, hd, hgetjob, Event.isCheck]
    · exact Or.inl ⟨config, ns, isSet, client, imageClient, hload, hrel, hjob, hclient,
        hgetrel, fun _ => hgetjob, himage⟩

/-- A run that calls the controller's `Run` has passed every check. -/
theorem checks_of_reachesLoop (o : options) (env : Env)
    (h : reachesLoop (o.Run env).trace) : ChecksPass o env := by
  rcases Run_cases o env with hc | ⟨msg, -, hall⟩
  · exact hc
  · obtain ⟨w, ch, hmem⟩ := h
    have := hall _ hmem
    simp [Event.isCheck] at this

/-- The trace of `startController`, written out. -/
theorem startController_trace (o : options) (env : Env) (client : Clientset)
    (imageClient : ImageClientset) :
    (startController o env client imageClient).trace =
      [ Event.newFactory (Factory.batch o.JobNamespace),
        Event.newController ⟨Factory.batch o.JobNamespace⟩ o.ReleaseNamespace o.JobNamespace,
        Event.factoryStart (Factory.batch o.JobNamespace) StopCh.NeverStop,
        Event.factoryWaitForCacheSync (Factory.batch o.JobNamespace) StopCh.NeverStop,
        Event.newFactory (Factory.image o.ReleaseNamespace),
        Event.addNamespacedImageStreamInformer o.ReleaseNamespace
          (Factory.image o.ReleaseNamespace),
        Event.factoryStart (Factory.image o.ReleaseNamespace) StopCh.NeverStop,
        Event.factoryWaitForCacheSync (Factory.image o.ReleaseNamespace) StopCh.NeverStop ]
      ++ registerJobImageStreams o (controllerAtJobRegistration o env client imageClient)
      ++ [ Event.infof "Caches synced", Event.controllerRun 3 StopCh.NeverStop ] := by
  simp [startController, stopCh, controllerAtJobRegistration]

/-- The function `options.Run` never calls `glog.Exitf`. -/
theorem Run_exitCalls (o : options) (env : Env) : exitCalls (o.Run env).trace = [] := by
  rcases Run_cases o env with ⟨config, ns, isSet, client, imageClient, hload, hrel, hjob,
      hclient, hgetrel, hgetjob, himage⟩ | ⟨msg, -, hall⟩
  · rw [Run_of_checks o env config ns isSet client imageClient hload hrel hjob hclient
      hgetrel hgetjob himage, startController_trace]
    by_cases hd : o.JobNamespace = o.ReleaseNamespace
    · simp [publishMessage, hd, registerJobImageStreams, exitCalls]
    · simp [publishMessage, hd, registerJobImageStreams, exitCalls]
  · generalize (o.Run env).trace = t at hall
    induction t with
    | nil => rfl
    | cons e t ih =>
      have he := hall e (List.mem_cons_self _ _)
      have ht := ih (fun x hx => hall x (List.mem_cons_of_mem _ hx))
      cases e <;> simp_all [exitCalls, Event.isCheck]

/-- Every stop channel that `options.Run` hands out is `wait.NeverStop`. -/
theorem Run_stopChannels (o : options) (env : Env) :
    ∀ ch ∈ stopChannels (o.Run env).trace, ch = StopCh.NeverStop := by
  rcases Run_cases o env with ⟨config, ns, isSet, client, imageClient, hload, hrel, hjob,
      hclient, hgetrel, hgetjob, himage⟩ | ⟨msg, -, hall⟩
  · rw [Run_of_checks o env config ns isSet client imageClient hload hrel hjob hclient
      hgetrel hgetjob himage, startController_trace]
    by_cases hd : o.JobNamespace = o.ReleaseNamespace
    · simp [publishMessage, hd, registerJobImageStreams, stopChannels]
    · simp [publishMessage, hd, registerJobImageStreams, stopChannels, stopCh]
  · have hnone : ∀ t : List Event, (∀ e ∈ t, e.isCheck = true) → stopChannels t = [] := by
      intro t
      induction t with
      | nil => intro _; rfl
      | cons e t ih =>
        intro hall
        have he := hall e (List.mem_cons_self _ _)
        have ht := ih (fun x hx => hall x (List.mem_cons_of_mem _ hx))
        cases e <;> first
          | (simp only [stopChannels]; exact ht)
          | (simp [Event.isCheck] at he)
    rw [hnone _ hall]
    simp

/-- The complete trace of a run with one namespace for releases and jobs. -/
theorem sample_run_same :
    (options.Run ⟨"ocp", "ocp"⟩ sampleEnv).trace =
      [ Event.loadClusterConfig,
        Event.newClientset ⟨"https://api.ci.example"⟩,
        Event.namespaceGet "ocp",
        Event.infof "Release will be published to image stream ocp/release and jobs will be in the same namespace",
        Event.newImageClientset ⟨"https://api.ci.example"⟩,
        Event.newFactory (Factory.batch "ocp"),
        Event.newController ⟨Factory.batch "ocp"⟩ "ocp" "ocp",
        Event.factoryStart (Factory.batch "ocp") StopCh.NeverStop,
        Event.factoryWaitForCacheSync (Factory.batch "ocp") StopCh.NeverStop,
        Event.newFactory (Factory.image "ocp"),
        Event.addNamespacedImageStreamInformer "ocp" (Factory.image "ocp"),
        Event.factoryStart (Factory.image "ocp") StopCh.NeverStop,
        Event.factoryWaitForCacheSync (Factory.image "ocp") StopCh.NeverStop,
        Event.infof "Caches synced",
        Event.controllerRun 3 StopCh.NeverStop ] := by
  decide

/-! ## Missing namespaces -/

/-- C1: when the cluster configuration loads and `ReleaseNamespace` is empty,
`options.Run` returns the error "no namespace set, use --release-namespace"; when
`ReleaseNamespace` is non-empty and `JobNamespace` is empty it returns
"no job namespace set, use --job-namespace".  In both cases the only call `Run`
has made is `loadClusterConfig`: no client was created, no namespace looked up,
no informer factory created or started, no controller constructed or run. -/
theorem Run_missing_namespace (o : options) (env : Env)
    (hload : ∃ c, loadClusterConfig env.cluster = .ok c) :
    (o.ReleaseNamespace = "" →
      o.Run env =
        ⟨[Event.loadClusterConfig],
          Outcome.error "no namespace set, use --release-namespace"⟩) ∧
    (o.ReleaseNamespace ≠ "" → o.JobNamespace = "" →
      o.Run env =
        ⟨[Event.loadClusterConfig],
          Outcome.error "no job namespace set, use --job-namespace"⟩) := by
  obtain ⟨⟨config, ns, isSet⟩, hload⟩ := hload
  refine ⟨fun hrel => ?_, fun hrel hjob => ?_⟩
  · simp [options.Run, hload, hrel]
  · simp [options.Run, hload, hjob, String_ne_empty_length _ hrel]

/-- Instance of `Run_missing_namespace` in `sampleEnv`, once for each namespace. -/
theorem Run_missing_namespace_witness :
    options.Run ⟨"", "ci-release"⟩ sampleEnv =
        ⟨[Event.loadClusterConfig],
          Outcome.error "no namespace set, use --release-namespace"⟩ ∧
      options.Run ⟨"ocp", ""⟩ sampleEnv =
        ⟨[Event.loadClusterConfig],
          Outcome.error "no job namespace set, use --job-namespace"⟩ :=
  ⟨(Run_missing_namespace ⟨"", "ci-release"⟩ sampleEnv ⟨_, rfl⟩).1 rfl,
   (Run_missing_namespace ⟨"ocp", ""⟩ sampleEnv ⟨_, rfl⟩).2 (by decide) rfl⟩

/-! ## Unreachable namespaces -/

/-- C2: with both namespaces non-empty, the configuration loaded and the client
created: if the lookup of `ReleaseNamespace` fails with `e`, `options.Run`
returns "unable to find release namespace: " followed by `e`; if that lookup
succeeds, `JobNamespace` differs from `ReleaseNamespace` and its lookup fails
with `e`, `Run` returns "unable to find job namespace: " followed by `e`.  In
both cases the calls made are the configuration load, the client creation and the
lookups, nothing else: no controller is constructed, no informer factory is
started, the controller loop is not run. -/
theorem Run_namespace_lookup_fails (o : options) (env : Env) (config : Config) (ns : String)
    (isSet : Bool) (client : Clientset)
    (hrel : o.ReleaseNamespace ≠ "") (hjob : o.JobNamespace ≠ "")
    (hload : loadClusterConfig env.cluster = .ok (config, ns, isSet))
    (hclient : env.newClientset config = .ok client) :
    (∀ e, env.namespaceGet client o.ReleaseNamespace = .error e →
      o.Run env =
        ⟨[Event.loadClusterConfig, Event.newClientset config,
            Event.namespaceGet o.ReleaseNamespace],
          Outcome.error ("unable to find release namespace: " ++ e)⟩) ∧
    (∀ e, env.namespaceGet client o.ReleaseNamespace = .ok () →
      o.JobNamespace ≠ o.ReleaseNamespace →
      env.namespaceGet client o.JobNamespace = .error e →
      o.Run env =
        ⟨[Event.loadClusterConfig, Event.newClientset config,
            Event.namespaceGet o.ReleaseNamespace, Event.namespaceGet o.JobNamespace],
          Outcome.error ("unable to find job namespace: " ++ e)⟩) := by
  refine ⟨fun e hget => ?_, fun e hget hd hgetjob => ?_⟩
  · simp [options.Run, hload, hclient, String_ne_empty_length _ hrel,
      String_ne_empty_length _ hjob, checkNamespaces, hget]
  · simp [options.Run, hload, hclient, String_ne_empty_length _ hrel,
      String_ne_empty_length _ hjob, checkNamespaces, hget, hd, hgetjob]

/-- Instance of `Run_namespace_lookup_fails` in `sampleEnv`, where the namespace
`missing` does not exist. -/
theorem Run_namespace_lookup_fails_witness :
    options.Run ⟨"missing", "ci-release"⟩ sampleEnv =
        ⟨[Event.loadClusterConfig, Event.newClientset ⟨"https://api.ci.example"⟩,
            Event.namespaceGet "missing"],
          Outcome.error ("unable to find release namespace: " ++
            "namespace not found: missing")⟩ ∧
      options.Run ⟨"ocp", "missing"⟩ sampleEnv =
        ⟨[Event.loadClusterConfig, Event.newClientset ⟨"https://api.ci.example"⟩,
            Event.namespaceGet "ocp", Event.namespaceGet "missing"],
          Outcome.error ("unable to find job namespace: " ++
            "namespace not found: missing")⟩ :=
  ⟨(Run_namespace_lookup_fails ⟨"missing", "ci-release"⟩ sampleEnv ⟨"https://api.ci.example"⟩
      "default" false ⟨⟨"https://api.ci.example"⟩⟩ (by decide) (by decide) rfl rfl).1
      "namespace not found: missing" rfl,
   (Run_namespace_lookup_fails ⟨"ocp", "missing"⟩ sampleEnv ⟨"https://api.ci.example"⟩
      "default" false ⟨⟨"https://api.ci.example"⟩⟩ (by decide) (by decide) rfl rfl).2
      "namespace not found: missing" rfl (by decide) rfl⟩

/-! ## The exit of main -/

/-- C3: whenever `options.Run` returns an error `e`, `main` calls `glog.Exitf`
exactly once, with the message "error: " followed by `e`, from inside the cobra
`Run` closure, and the process ends with status 1; the `glog.Exitf` after
`cmd.Execute` is not among the calls. -/
theorem main_single_diagnostic (opt : options) (env : Env) (e : String)
    (h : (opt.Run env).outcome = Outcome.error e) :
    exitCalls (main (.ok opt) env).trace = [(ExitSite.runClosure, "error: " ++ e)] ∧
      (main (.ok opt) env).exitStatus = some 1 ∧
      (∀ msg, Event.exitf ExitSite.afterExecute msg ∉ (main (.ok opt) env).trace) := by
  have hx : ∀ t : List Event, ∀ site msg, exitCalls t = [] → Event.exitf site msg ∉ t := by
    intro t
    induction t with
    | nil => simp
    | cons a t ih =>
      intro site msg ht
      cases a <;> simp_all [exitCalls]
  have happ : ∀ t u : List Event, exitCalls (t ++ u) = exitCalls t ++ exitCalls u := by
    intro t u
    induction t with
    | nil => simp [exitCalls]
    | cons a t ih => cases a <;> simp_all [exitCalls]
  have hm : main (.ok opt) env =
      ⟨(opt.Run env).trace ++ [Event.exitf ExitSite.runClosure ("error: " ++ e)], some 1⟩ := by
    simp [main, h]
  rw [hm]
  refine ⟨?_, rfl, ?_⟩
  · rw [happ, Run_exitCalls]; simp [exitCalls]
  · intro msg hmem
    rcases List.mem_append.1 hmem with hm | hm
    · exact hx _ _ _ (Run_exitCalls opt env) hm
    · simp at hm

/-- Instance of `main_single_diagnostic` for a job namespace that does not exist. -/
theorem main_single_diagnostic_witness :
    exitCalls (main (.ok ⟨"ocp", "missing"⟩) sampleEnv).trace =
        [(ExitSite.runClosure,
          "error: " ++ "unable to find job namespace: namespace not found: missing")] ∧
      (main (.ok ⟨"ocp", "missing"⟩) sampleEnv).exitStatus = some 1 ∧
      (∀ msg, Event.exitf ExitSite.afterExecute msg ∉
        (main (.ok ⟨"ocp", "missing"⟩) sampleEnv).trace) :=
  main_single_diagnostic ⟨"ocp", "missing"⟩ sampleEnv
    "unable to find job namespace: namespace not found: missing" (by decide)

/-! ## The readiness gate -/

/-- C4: in every execution of `options.Run` that reaches the controller loop the
trace is `pre` followed by one call `c.Run(3, wait.NeverStop)` and nothing after
it; `pre` contains no call of the controller's `Run`; the factories created are
the job factory and the image-stream factory of the release namespace, plus the
image-stream factory of the job namespace when the namespaces differ; and each
created factory has had both `Start` and `WaitForCacheSync` called inside `pre`. -/
theorem Run_loop_after_sync (o : options) (env : Env)
    (h : reachesLoop (o.Run env).trace) :
    ∃ pre, (o.Run env).trace = pre ++ [Event.controllerRun 3 StopCh.NeverStop] ∧
      (∀ w ch, Event.controllerRun w ch ∉ pre) ∧
      createdFactories pre =
        (if o.JobNamespace = o.ReleaseNamespace then
          [Factory.batch o.JobNamespace, Factory.image o.ReleaseNamespace]
        else
          [Factory.batch o.JobNamespace, Factory.image o.ReleaseNamespace,
            Factory.image o.JobNamespace]) ∧
      (∀ f ∈ createdFactories pre,
        Event.factoryStart f StopCh.NeverStop ∈ pre ∧
        Event.factoryWaitForCacheSync f StopCh.NeverStop ∈ pre) := by
  obtain ⟨config, ns, isSet, client, imageClient, hload, hrel, hjob, hclient, hgetrel,
    hgetjob, himage⟩ := checks_of_reachesLoop o env h
  rw [Run_of_checks o env config ns isSet client imageClient hload hrel hjob hclient
    hgetrel hgetjob himage, startController_trace]
  by_cases hd : o.JobNamespace = o.ReleaseNamespace
  · refine ⟨[Event.loadClusterConfig, Event.newClientset config,
        Event.namespaceGet o.ReleaseNamespace] ++ publishMessage o
        ++ [Event.newImageClientset config]
        ++ [ Event.newFactory (Factory.batch o.JobNamespace),
          Event.newController ⟨Factory.batch o.JobNamespace⟩ o.ReleaseNamespace o.JobNamespace,
          Event.factoryStart (Factory.batch o.JobNamespace) StopCh.NeverStop,
          Event.factoryWaitForCacheSync (Factory.batch o.JobNamespace) StopCh.NeverStop,
          Event.newFactory (Factory.image o.ReleaseNamespace),
          Event.addNamespacedImageStreamInformer o.ReleaseNamespace
            (Factory.image o.ReleaseNamespace),
          Event.factoryStart (Factory.image o.ReleaseNamespace) StopCh.NeverStop,
          Event.factoryWaitForCacheSync (Factory.image o.ReleaseNamespace) StopCh.NeverStop,
          Event.infof "Caches synced" ], ?_, ?_, ?_, ?_⟩
    · simp [registerJobImageStreams, hd]
    · simp [publishMessage, hd]
    · simp [publishMessage, hd, createdFactories]
    · simp [publishMessage, hd, createdFactories]
  · refine ⟨[Event.loadClusterConfig, Event.newClientset config,
        Event.namespaceGet o.ReleaseNamespace] ++ publishMessage o
        ++ [Event.newImageClientset config]
        ++ [ Event.newFactory (Factory.batch o.JobNamespace),
          Event.newController ⟨Factory.batch o.JobNamespace⟩ o.ReleaseNamespace o.JobNamespace,
          Event.factoryStart (Factory.batch o.JobNamespace) StopCh.NeverStop,
          Event.factoryWaitForCacheSync (Factory.batch o.JobNamespace) StopCh.NeverStop,
          Event.newFactory (Factory.image o.ReleaseNamespace),
          Event.addNamespacedImageStreamInformer o.ReleaseNamespace
            (Factory.image o.ReleaseNamespace),
          Event.factoryStart (Factory.image o.ReleaseNamespace) StopCh.NeverStop,
          Event.factoryWaitForCacheSync (Factory.image o.ReleaseNamespace) StopCh.NeverStop,
          Event.newFactory (Factory.image o.JobNamespace),
          Event.addNamespacedImageStreamInformer
            (controllerAtJobRegistration o env client imageClient).jobNamespace
            (Factory.image o.JobNamespace),
          Event.factoryStart (Factory.image o.JobNamespace) StopCh.NeverStop,
          Event.factoryWaitForCacheSync (Factory.image o.JobNamespace) StopCh.NeverStop,
          Event.infof "Caches synced" ], ?_, ?_, ?_, ?_⟩
    · simp [registerJobImageStreams, hd, stopCh]
    · simp [publishMessage, hd]
    · simp [publishMessage, hd, createdFactories]
    · simp [publishMessage, hd, createdFactories]

/-- Instance of `Run_loop_after_sync` for two different namespaces. -/
theorem Run_loop_after_sync_witness :
    ∃ pre, (options.Run ⟨"ocp", "ci-release"⟩ sampleEnv).trace =
        pre ++ [Event.controllerRun 3 StopCh.NeverStop] ∧
      (∀ w ch, Event.controllerRun w ch ∉ pre) ∧
      createdFactories pre =
        [Factory.batch "ci-release", Factory.image "ocp", Factory.image "ci-release"] ∧
      (∀ f ∈ createdFactories pre,
        Event.factoryStart f StopCh.NeverStop ∈ pre ∧
        Event.factoryWaitForCacheSync f StopCh.NeverStop ∈ pre) :=
  Run_loop_after_sync ⟨"ocp", "ci-release"⟩ sampleEnv ⟨3, StopCh.NeverStop, by decide⟩

/-! ## One namespace for releases and jobs -/

/-- C5: when `JobNamespace` equals `ReleaseNamespace` (non-empty), the
configuration loads, both clients are created and the lookup of that namespace
succeeds, `options.Run` looks up exactly one namespace (that one), does not
return an error, and calls `NewController` with that name as release namespace
and as job namespace, and with no other names. -/
theorem Run_same_namespace (o : options) (env : Env) (config : Config) (ns : String)
    (isSet : Bool) (client : Clientset) (imageClient : ImageClientset)
    (hsame : o.JobNamespace = o.ReleaseNamespace) (hrel : o.ReleaseNamespace ≠ "")
    (hload : loadClusterConfig env.cluster = .ok (config, ns, isSet))
    (hclient : env.newClientset config = .ok client)
    (himage : env.newImageClientset config = .ok imageClient)
    (hget : env.namespaceGet client o.ReleaseNamespace = .ok ()) :
    lookups (o.Run env).trace = [o.ReleaseNamespace] ∧
      (∀ msg, (o.Run env).outcome ≠ Outcome.error msg) ∧
      Event.newController ⟨Factory.batch o.ReleaseNamespace⟩ o.ReleaseNamespace
        o.ReleaseNamespace ∈ (o.Run env).trace ∧
      (∀ jobs r j, Event.newController jobs r j ∈ (o.Run env).trace →
        r = o.ReleaseNamespace ∧ j = o.ReleaseNamespace) := by
  have hjob : o.JobNamespace ≠ "" := by rw [hsame]; exact hrel
  rw [Run_of_checks o env config ns isSet client imageClient hload hrel hjob hclient
    hget (fun hne => absurd hsame hne) himage, startController_trace]
  refine ⟨?_, ?_, ?_, ?_⟩
  · simp [publishMessage, hsame, registerJobImageStreams, lookups]
  · intro msg
    simp only [startController]
    cases env.controllerRunReturns <;> simp
  · simp [hsame]
  · intro jobs r j hmem
    simp [publishMessage, hsame, registerJobImageStreams] at hmem
    exact ⟨hmem.2.1, hmem.2.2⟩

/-- Instance of `Run_same_namespace` for the namespace `ocp`. -/
theorem Run_same_namespace_witness :
    lookups (options.Run ⟨"ocp", "ocp"⟩ sampleEnv).trace = ["ocp"] ∧
      (∀ msg, (options.Run ⟨"ocp", "ocp"⟩ sampleEnv).outcome ≠ Outcome.error msg) ∧
      Event.newController ⟨Factory.batch "ocp"⟩ "ocp" "ocp" ∈
        (options.Run ⟨"ocp", "ocp"⟩ sampleEnv).trace ∧
      (∀ jobs r j, Event.newController jobs r j ∈ (options.Run ⟨"ocp", "ocp"⟩ sampleEnv).trace →
        r = "ocp" ∧ j = "ocp") :=
  Run_same_namespace ⟨"ocp", "ocp"⟩ sampleEnv ⟨"https://api.ci.example"⟩ "default" false
    ⟨⟨"https://api.ci.example"⟩⟩ ⟨⟨"https://api.ci.example"⟩⟩ rfl (by decide) rfl rfl rfl rfl

/-! ## Informer namespaces -/

/-- C6, as stated, fails: with a controller whose `jobNamespace` field holds the
release namespace, the run for release namespace `ocp` and job namespace
`ci-release` reaches the controller loop and registers image-stream informers
under `ocp` twice and never under `ci-release`. -/
theorem Run_registers_release_twice :
    reachesLoop (options.Run ⟨"ocp", "ci-release"⟩ releaseKeyedEnv).trace ∧
      registrations (options.Run ⟨"ocp", "ci-release"⟩ releaseKeyedEnv).trace =
        [("ocp", Factory.image "ocp"), ("ocp", Factory.image "ci-release")] ∧
      ¬ ((registrations (options.Run ⟨"ocp", "ci-release"⟩ releaseKeyedEnv).trace).map
          Prod.fst).Nodup :=
  ⟨⟨3, StopCh.NeverStop, by decide⟩, by decide, by decide⟩

/-- C6, amended: in every execution of `options.Run` that reaches the controller
loop, the job informer handed to the controller comes from the factory scoped to
`JobNamespace`; the image-stream informers registered come, in this order, from
the factory scoped to `ReleaseNamespace` alone when the two namespaces are
equal, and from the factories scoped to `ReleaseNamespace` and to `JobNamespace`
when they differ, no factory twice; the first is registered under
`ReleaseNamespace`, the second under the value that the controller's field
`jobNamespace` has at main.go:108; and whenever that value is `JobNamespace`, the
namespaces registered are the distinct ones among the two, none twice. -/
theorem Run_informer_factories (o : options) (env : Env) (config : Config) (ns : String)
    (isSet : Bool) (client : Clientset) (imageClient : ImageClientset)
    (h : reachesLoop (o.Run env).trace)
    (hload : loadClusterConfig env.cluster = .ok (config, ns, isSet))
    (hclient : env.newClientset config = .ok client)
    (himage : env.newImageClientset config = .ok imageClient) :
    Event.newController ⟨Factory.batch o.JobNamespace⟩ o.ReleaseNamespace o.JobNamespace
        ∈ (o.Run env).trace ∧
      (∀ jobs r j, Event.newController jobs r j ∈ (o.Run env).trace →
        jobs.factory = Factory.batch o.JobNamespace) ∧
      registrations (o.Run env).trace =
        (if o.JobNamespace = o.ReleaseNamespace then
          [(o.ReleaseNamespace, Factory.image o.ReleaseNamespace)]
        else
          [(o.ReleaseNamespace, Factory.image o.ReleaseNamespace),
            ((controllerAtJobRegistration o env client imageClient).jobNamespace,
              Factory.image o.JobNamespace)]) ∧
      ((registrations (o.Run env).trace).map Prod.snd).Nodup ∧
      ((controllerAtJobRegistration o env client imageClient).jobNamespace = o.JobNamespace →
        (registrations (o.Run env).trace).map Prod.fst =
            (if o.JobNamespace = o.ReleaseNamespace then [o.ReleaseNamespace]
              else [o.ReleaseNamespace, o.JobNamespace]) ∧
          ((registrations (o.Run env).trace).map Prod.fst).Nodup) := by
  obtain ⟨config2, ns2, isSet2, client2, imageClient2, hload2, hrel, hjob, hclient2, hgetrel,
    hgetjob, himage2⟩ := checks_of_reachesLoop o env h
  rw [hload] at hload2
  injection hload2 with hload2
  injection hload2 with hconfig _
  subst hconfig
  rw [hclient] at hclient2
  injection hclient2 with hclient2
  subst hclient2
  rw [himage] at himage2
  injection himage2 with himage2
  subst himage2
  rw [Run_of_checks o env config ns isSet client imageClient hload hrel hjob hclient
    hgetrel hgetjob himage, startController_trace]
  by_cases hd : o.JobNamespace = o.ReleaseNamespace
  · refine ⟨by simp, ?_, ?_, ?_, ?_⟩
    · intro jobs r j hmem
      simp [publishMessage, hd, registerJobImageStreams] at hmem
      simp [hmem.1, hd]
    · simp [publishMessage, hd, registerJobImageStreams, registrations]
    · simp [publishMessage, hd, registerJobImageStreams, registrations]
    · intro _
      simp [publishMessage, hd, registerJobImageStreams, registrations]
  · have hd2 : ¬ o.ReleaseNamespace = o.JobNamespace := fun hh => hd hh.symm
    refine ⟨by simp, ?_, ?_, ?_, ?_⟩
    · intro jobs r j hmem
      simp [publishMessage, hd, registerJobImageStreams] at hmem
      simp [hmem.1]
    · simp [publishMessage, hd, registerJobImageStreams, registrations]
    · simp [publishMessage, hd, registerJobImageStreams, registrations, hd2]
    · intro hkey
      simp [publishMessage, hd, registerJobImageStreams, registrations, hkey, hd2]

/-- Instance of `Run_informer_factories` for two different namespaces, with a
controller that keeps the job namespace it is given. -/
theorem Run_informer_factories_witness :
    Event.newController ⟨Factory.batch "ci-release"⟩ "ocp" "ci-release"
        ∈ (options.Run ⟨"ocp", "ci-release"⟩ sampleEnv).trace ∧
      (∀ jobs r j, Event.newController jobs r j ∈
          (options.Run ⟨"ocp", "ci-release"⟩ sampleEnv).trace →
        jobs.factory = Factory.batch "ci-release") ∧
      registrations (options.Run ⟨"ocp", "ci-release"⟩ sampleEnv).trace =
        [("ocp", Factory.image "ocp"), ("ci-release", Factory.image "ci-release")] ∧
      ((registrations (options.Run ⟨"ocp", "ci-release"⟩ sampleEnv).trace).map Prod.snd).Nodup ∧
      ("ci-release" = "ci-release" →
        (registrations (options.Run ⟨"ocp", "ci-release"⟩ sampleEnv).trace).map Prod.fst =
            ["ocp", "ci-release"] ∧
          ((registrations (options.Run ⟨"ocp", "ci-release"⟩ sampleEnv).trace).map
            Prod.fst).Nodup) :=
  Run_informer_factories ⟨"ocp", "ci-release"⟩ sampleEnv ⟨"https://api.ci.example"⟩ "default"
    false ⟨⟨"https://api.ci.example"⟩⟩ ⟨⟨"https://api.ci.example"⟩⟩
    ⟨3, StopCh.NeverStop, by decide⟩ rfl rfl rfl

/-! ## The source of the cluster configuration -/

/-- C7: in a pod where the in-cluster configuration is available and there is no
kubeconfig, `loadClusterConfig` fails instead of returning the in-cluster
configuration; in a pod that also has a kubeconfig it returns the kubeconfig's
configuration, not the in-cluster one. -/
theorem loadClusterConfig_skips_inCluster :
    podCluster.inClusterConfig = .ok ⟨"https://kubernetes.default.svc"⟩ ∧
      loadClusterConfig podCluster =
        .error ("could not load client configuration: " ++
          "invalid configuration: no configuration has been provided") ∧
      podWithKubeconfig.inClusterConfig = .ok ⟨"https://kubernetes.default.svc"⟩ ∧
      loadClusterConfig podWithKubeconfig = .ok (⟨"https://api.ci.example"⟩, "default", false) :=
  ⟨rfl, rfl, rfl, rfl⟩

/-! ## The stop channel -/

/-- C8, as stated, fails: there is no options value, no environment and no stop
channel such that `options.Run` passes the channel to a factory `Start`, to a
`WaitForCacheSync` or to the controller's `Run` and the channel can be
signalled. -/
theorem Run_stop_signal_unreachable :
    ¬ ∃ (o : options) (env : Env) (ch : StopCh),
      ch ∈ stopChannels (o.Run env).trace ∧ ch.canBeSignalled = true := by
  rintro ⟨o, env, ch, hmem, hsig⟩
  rw [Run_stopChannels o env ch hmem] at hsig
  simp [StopCh.canBeSignalled] at hsig

/-- C8, amended: in every execution of `options.Run` that reaches the controller
loop, stop channels are handed out, and every one of them, whether given to a
factory `Start`, to a `WaitForCacheSync` or to the controller's `Run`, is the
same channel `wait.NeverStop`, which cannot be signalled. -/
theorem Run_stop_channel_is_NeverStop (o : options) (env : Env)
    (h : reachesLoop (o.Run env).trace) :
    stopChannels (o.Run env).trace ≠ [] ∧
      ∀ ch ∈ stopChannels (o.Run env).trace,
        ch = StopCh.NeverStop ∧ ch.canBeSignalled = false := by
  refine ⟨?_, fun ch hmem => ?_⟩
  · obtain ⟨config, ns, isSet, client, imageClient, hload, hrel, hjob, hclient, hgetrel,
      hgetjob, himage⟩ := checks_of_reachesLoop o env h
    rw [Run_of_checks o env config ns isSet client imageClient hload hrel hjob hclient
      hgetrel hgetjob himage, startController_trace]
    by_cases hd : o.JobNamespace = o.ReleaseNamespace
    · simp [publishMessage, hd, registerJobImageStreams, stopChannels]
    · simp [publishMessage, hd, registerJobImageStreams, stopChannels]
  · have hch := Run_stopChannels o env ch hmem
    subst hch
    exact ⟨rfl, rfl⟩

/-- Instance of `Run_stop_channel_is_NeverStop` for two different namespaces. -/
theorem Run_stop_channel_is_NeverStop_witness :
    stopChannels (options.Run ⟨"ocp", "ci-release"⟩ sampleEnv).trace ≠ [] ∧
      ∀ ch ∈ stopChannels (options.Run ⟨"ocp", "ci-release"⟩ sampleEnv).trace,
        ch = StopCh.NeverStop ∧ ch.canBeSignalled = false :=
  Run_stop_channel_is_NeverStop ⟨"ocp", "ci-release"⟩ sampleEnv
    ⟨3, StopCh.NeverStop, by decide⟩

/-! ## The worker pool -/

/-- C9: in every execution of `options.Run` that reaches the controller loop the
controller's `Run` is called with 3 workers, and with no other worker count,
whatever the two namespaces are. -/
theorem Run_worker_count (o : options) (env : Env)
    (h : reachesLoop (o.Run env).trace) :
    (∃ ch, Event.controllerRun 3 ch ∈ (o.Run env).trace) ∧
      ∀ w ch, Event.controllerRun w ch ∈ (o.Run env).trace → w = 3 := by
  obtain ⟨config, ns, isSet, client, imageClient, hload, hrel, hjob, hclient, hgetrel,
    hgetjob, himage⟩ := checks_of_reachesLoop o env h
  rw [Run_of_checks o env config ns isSet client imageClient hload hrel hjob hclient
    hgetrel hgetjob himage, startController_trace]
  refine ⟨⟨StopCh.NeverStop, by simp⟩, ?_⟩
  intro w ch hmem
  by_cases hd : o.JobNamespace = o.ReleaseNamespace
  · simp [publishMessage, hd, registerJobImageStreams] at hmem
    exact hmem.1
  · simp [publishMessage, hd, registerJobImageStreams] at hmem
    exact hmem.1

/-- Instance of `Run_worker_count` for one shared namespace. -/
theorem Run_worker_count_witness :
    (∃ ch, Event.controllerRun 3 ch ∈ (options.Run ⟨"ocp", "ocp"⟩ returningEnv).trace) ∧
      ∀ w ch, Event.controllerRun w ch ∈ (options.Run ⟨"ocp", "ocp"⟩ returningEnv).trace →
        w = 3 :=
  Run_worker_count ⟨"ocp", "ocp"⟩ returningEnv ⟨3, StopCh.NeverStop, by decide⟩

/-! ## The order of the checks -/

/-- C10: the start-up checks of `options.Run` are evaluated in the order
configuration load, `ReleaseNamespace` non-empty, `JobNamespace` non-empty,
client creation, `ReleaseNamespace` lookup, `JobNamespace` lookup (only when the
namespaces differ), image client creation, and the first one that fails gives
the returned error, whatever the later ones would have answered.  A failed
configuration load gives "unable to load client configuration: ..." also when
both namespaces are empty; two empty namespaces give the release-namespace
error.  `Run` returns `nil` exactly when every check passed and the controller
loop, which was then run, returned. -/
theorem Run_check_order (o : options) (env : Env) :
    (∀ e, loadClusterConfig env.cluster = .error e →
      (o.Run env).outcome = Outcome.error ("unable to load client configuration: " ++ e)) ∧
    (∀ config ns isSet, loadClusterConfig env.cluster = .ok (config, ns, isSet) →
      (o.ReleaseNamespace = "" →
        (o.Run env).outcome = Outcome.error "no namespace set, use --release-namespace") ∧
      (o.ReleaseNamespace ≠ "" → o.JobNamespace = "" →
        (o.Run env).outcome = Outcome.error "no job namespace set, use --job-namespace") ∧
      (o.ReleaseNamespace ≠ "" → o.JobNamespace ≠ "" →
        (∀ e, env.newClientset config = .error e →
          (o.Run env).outcome = Outcome.error ("unable to create client: " ++ e)) ∧
        (∀ client, env.newClientset config = .ok client →
          (∀ e, env.namespaceGet client o.ReleaseNamespace = .error e →
            (o.Run env).outcome =
              Outcome.error ("unable to find release namespace: " ++ e)) ∧
          (env.namespaceGet client o.ReleaseNamespace = .ok () →
            (∀ e, o.JobNamespace ≠ o.ReleaseNamespace →
              env.namespaceGet client o.JobNamespace = .error e →
              (o.Run env).outcome =
                Outcome.error ("unable to find job namespace: " ++ e)) ∧
            ((o.JobNamespace ≠ o.ReleaseNamespace →
                env.namespaceGet client o.JobNamespace = .ok ()) →
              (∀ e, env.newImageClientset config = .error e →
                (o.Run env).outcome =
                  Outcome.error ("unable to create client: " ++ e)) ∧
              (∀ imageClient, env.newImageClientset config = .ok imageClient →
                (o.Run env).outcome =
                  if env.controllerRunReturns then Outcome.nil else Outcome.blocked)))))) ∧
    ((o.Run env).outcome = Outcome.nil ↔
      ChecksPass o env ∧ reachesLoop (o.Run env).trace ∧ env.controllerRunReturns = true) := by
  refine ⟨fun e hload => ?_, fun config ns isSet hload => ⟨fun hrel => ?_, fun hrel hjob => ?_,
    fun hrel hjob => ⟨fun e hclient => ?_, fun client hclient => ⟨fun e hget => ?_,
      fun hget => ⟨fun e hd hgetjob => ?_, fun hgetjob => ⟨fun e himage => ?_,
        fun imageClient himage => ?_⟩⟩⟩⟩⟩, ?_⟩
  · simp [options.Run, hload]
  · simp [options.Run, hload, hrel]
  · simp [options.Run, hload, hjob, String_ne_empty_length _ hrel]
  · simp [options.Run, hload, hclient, String_ne_empty_length _ hrel,
      String_ne_empty_length _ hjob]
  · simp [options.Run, hload, hclient, String_ne_empty_length _ hrel,
      String_ne_empty_length _ hjob, checkNamespaces, hget]
  · simp [options.Run, hload, hclient, String_ne_empty_length _ hrel,
      String_ne_empty_length _ hjob, checkNamespaces, hget, hd, hgetjob]
  · by_cases hd : o.JobNamespace = o.ReleaseNamespace
    · simp [options.Run, hload, hclient, String_ne_empty_length _ hrel,
        String_ne_empty_length _ hjob, checkNamespaces, hget, hd, createImageClient, himage]
    · simp [options.Run, hload, hclient, String_ne_empty_length _ hrel,
        String_ne_empty_length _ hjob, checkNamespaces, hget, hd, hgetjob hd,
        createImageClient, himage]
  · rw [Run_of_checks o env config ns isSet client imageClient hload hrel hjob hclient
      hget hgetjob himage]
    simp [startController]
  · constructor
    · intro hnil
      rcases Run_cases o env with hc | ⟨msg, hmsg, -⟩
      · obtain ⟨config, ns, isSet, client, imageClient, hload, hrel, hjob, hclient, hgetrel,
          hgetjob, himage⟩ := hc
        have hrun := Run_of_checks o env config ns isSet client imageClient hload hrel hjob
          hclient hgetrel hgetjob himage
        refine ⟨⟨config, ns, isSet, client, imageClient, hload, hrel, hjob, hclient, hgetrel,
          hgetjob, himage⟩, ⟨3, StopCh.NeverStop, ?_⟩, ?_⟩
        · rw [hrun, startController_trace]; simp
        · rw [hrun] at hnil
          simp only [startController] at hnil
          cases hr : env.controllerRunReturns
          · simp [hr] at hnil
          · rfl
      · rw [hmsg] at hnil; cases hnil
    · rintro ⟨⟨config, ns, isSet, client, imageClient, hload, hrel, hjob, hclient, hgetrel,
        hgetjob, himage⟩, -, hret⟩
      rw [Run_of_checks o env config ns isSet client imageClient hload hrel hjob hclient
        hgetrel hgetjob himage]
      simp [startController, hret]

/-- Instances of `Run_check_order`: a failed configuration load with both
namespaces empty, two empty namespaces with the configuration loaded, and a run
that returns `nil`. -/
theorem Run_check_order_witness :
    (options.Run ⟨"", ""⟩ noConfigEnv).outcome =
        Outcome.error ("unable to load client configuration: " ++
          "could not load credentials from config: kubeconfig is malformed") ∧
      (options.Run ⟨"", ""⟩ sampleEnv).outcome =
        Outcome.error "no namespace set, use --release-namespace" ∧
      (ChecksPass ⟨"ocp", "ci-release"⟩ returningEnv ∧
        reachesLoop (options.Run ⟨"ocp", "ci-release"⟩ returningEnv).trace ∧
        returningEnv.controllerRunReturns = true) :=
  ⟨(Run_check_order ⟨"", ""⟩ noConfigEnv).1 _ rfl,
   ((Run_check_order ⟨"", ""⟩ sampleEnv).2.1 _ _ _ rfl).1 rfl,
   (Run_check_order ⟨"ocp", "ci-release"⟩ returningEnv).2.2.1 (by decide)⟩

end ReleaseController
